import Mathlib

/-!
# SkyWeaver correlation engine — verification development

Shallow embedding of `src/lib/correlation-engine.ts` (class `CorrelationEngine`)
and proofs about it.

Modelling conventions:
* JavaScript `number` values are embedded as exact rationals (`ℚ`); `NaN`
  arising from a failed `Date` parse is represented by `Option ℚ` (`none` is
  NaN).  Comparisons against NaN are false, matching IEEE semantics.
* `Date` parsing (a host-runtime facility, not repository code) is abstracted
  as a parameter `parse : String → Option ℚ` returning milliseconds since
  epoch, `none` for an unparseable string.
* `calculateAngularSeparation` is built from transcendental functions
  (`sin`, `cos`, `atan2`) that have no exact rational embedding; the
  correlator is therefore parametrised over the separation function
  `angSep : ℚ → ℚ → ℚ → ℚ → ℚ`, which the properties proved here treat as
  opaque.
* The axios fetchers of `src/lib/supabase.ts:149-210` (the
  `./astro-fetchers` chunk imported by the engine) read the network; that
  host state is modelled by an explicit `Network` value, and a rejected
  promise by `Except.error`.
-/

/-- `AstroEvent` from `src/lib/supabase.ts` (the fields the correlation engine
reads; the optional metadata fields are opaque to the engine). `time_utc` is
kept as the raw string the source stores, parsed by the host runtime. -/
structure AstroEvent where
  id : String
  event_id : String
  event_type : String
  source : String
  time_utc : String
  ra : ℚ
  dec : ℚ
  deriving DecidableEq, Repr

/-- `CorrelationParams` from `src/lib/correlation-engine.ts`.
`minConfidenceScore?` is optional, hence `Option`. -/
structure CorrelationParams where
  timeWindowSeconds : ℚ
  angularThresholdDeg : ℚ
  minConfidenceScore : Option ℚ := none
  deriving DecidableEq, Repr

/-- `EventPair` from `src/lib/correlation-engine.ts` (the declared interface;
the source's `results.push` adds two further fields, `crossMessenger` and
`nearbyObjects`, that are not part of the declared interface, so the
declared interface is embedded; the SIMBAD lookup that would populate
`nearbyObjects` is modelled, for its effect and failure path, in
`evalPair`). -/
structure EventPair where
  event1 : AstroEvent
  event2 : AstroEvent
  timeDiffSeconds : ℚ
  angularSeparationDeg : ℚ
  correlationType : String
  confidenceScore : ℚ
  deriving DecidableEq, Repr

/-- `CorrelationEngine.calculateTimeDifference`
(`src/lib/correlation-engine.ts:39-43`): parse both timestamps with
`new Date(..)`, subtract the millisecond clock values, take the absolute
value and divide by 1000.  An unparseable timestamp gives `NaN`
(here `none`), which propagates through the arithmetic. -/
def calculateTimeDifference (parse : String → Option ℚ) (time1 time2 : String) :
    Option ℚ :=
  match parse time1, parse time2 with
  | some date1, some date2 => some (|date2 - date1| / 1000)
  | _, _ => none

/-- `CorrelationEngine.calculateConfidenceScore`
(`src/lib/correlation-engine.ts:46-56`). -/
def calculateConfidenceScore (timeDiffSeconds angularSepDeg : ℚ)
    (params : CorrelationParams) : ℚ :=
  let timeScore := max 0 (1 - timeDiffSeconds / params.timeWindowSeconds)
  let spatialScore := max 0 (1 - angularSepDeg / params.angularThresholdDeg)
  0.7 * timeScore + 0.3 * spatialScore

/-- The score is a sum of two nonnegative terms, so it is never negative
(no positivity assumptions on the parameters are needed for this bound). -/
lemma calculateConfidenceScore_nonneg (timeDiffSeconds angularSepDeg : ℚ)
    (params : CorrelationParams) :
    0 ≤ calculateConfidenceScore timeDiffSeconds angularSepDeg params := by
  unfold calculateConfidenceScore
  have h1 : (0 : ℚ) ≤ max 0 (1 - timeDiffSeconds / params.timeWindowSeconds) :=
    le_max_left _ _
  have h2 : (0 : ℚ) ≤ max 0 (1 - angularSepDeg / params.angularThresholdDeg) :=
    le_max_left _ _
  nlinarith

/-- C2: Scoring formula: for every timeDiff ≥ 0, angularSep ≥ 0 and params with
timeWindowSeconds > 0 and angularThresholdDeg > 0, `calculateConfidenceScore`
equals exactly 0.7 * max(0, 1 - timeDiff/timeWindowSeconds)
+ 0.3 * max(0, 1 - angularSep/angularThresholdDeg), a value in [0, 1]. -/
theorem confidenceScore_formula_and_bounds (timeDiffSeconds angularSepDeg : ℚ)
    (params : CorrelationParams)
    (htd : 0 ≤ timeDiffSeconds) (hsep : 0 ≤ angularSepDeg)
    (hW : 0 < params.timeWindowSeconds) (hT : 0 < params.angularThresholdDeg) :
    calculateConfidenceScore timeDiffSeconds angularSepDeg params =
      0.7 * max 0 (1 - timeDiffSeconds / params.timeWindowSeconds) +
        0.3 * max 0 (1 - angularSepDeg / params.angularThresholdDeg) ∧
    0 ≤ calculateConfidenceScore timeDiffSeconds angularSepDeg params ∧
    calculateConfidenceScore timeDiffSeconds angularSepDeg params ≤ 1 := by
  refine ⟨rfl, calculateConfidenceScore_nonneg _ _ _, ?_⟩
  unfold calculateConfidenceScore
  have ht1 : max 0 (1 - timeDiffSeconds / params.timeWindowSeconds) ≤ 1 :=
    max_le zero_le_one (sub_le_self 1 (div_nonneg htd hW.le))
  have hs1 : max 0 (1 - angularSepDeg / params.angularThresholdDeg) ≤ 1 :=
    max_le zero_le_one (sub_le_self 1 (div_nonneg hsep hT.le))
  have h1 : (0 : ℚ) ≤ max 0 (1 - timeDiffSeconds / params.timeWindowSeconds) :=
    le_max_left _ _
  have h2 : (0 : ℚ) ≤ max 0 (1 - angularSepDeg / params.angularThresholdDeg) :=
    le_max_left _ _
  nlinarith

/-- Witness for `confidenceScore_formula_and_bounds` at timeDiff = 60,
angularSep = 1, window = 600 s, threshold = 1°. -/
theorem confidenceScore_formula_and_bounds_witness :
    (0 : ℚ) ≤ 60 ∧ (0 : ℚ) ≤ 1 ∧ (0 : ℚ) < 600 ∧ (0 : ℚ) < 1 ∧
    (calculateConfidenceScore 60 1 ⟨600, 1, none⟩ =
        0.7 * max 0 (1 - (60 : ℚ) / 600) + 0.3 * max 0 (1 - (1 : ℚ) / 1) ∧
      0 ≤ calculateConfidenceScore 60 1 ⟨600, 1, none⟩ ∧
      calculateConfidenceScore 60 1 ⟨600, 1, none⟩ ≤ 1) :=
  ⟨by norm_num, by norm_num, by norm_num, by norm_num,
    confidenceScore_formula_and_bounds 60 1 ⟨600, 1, none⟩
      (by norm_num) (by norm_num) (by norm_num) (by norm_num)⟩

/-- C6: Score monotonicity: holding params fixed (with positive window and
threshold) and angularSep fixed, `calculateConfidenceScore` is monotonically
non-increasing as timeDiff increases; symmetrically, holding timeDiff fixed,
it is monotonically non-increasing as angularSep increases. -/
theorem confidenceScore_monotone (params : CorrelationParams)
    (hW : 0 < params.timeWindowSeconds) (hT : 0 < params.angularThresholdDeg) :
    (∀ timeDiff timeDiff2 angularSep : ℚ, timeDiff ≤ timeDiff2 →
      calculateConfidenceScore timeDiff2 angularSep params ≤
        calculateConfidenceScore timeDiff angularSep params) ∧
    (∀ timeDiff angularSep angularSep2 : ℚ, angularSep ≤ angularSep2 →
      calculateConfidenceScore timeDiff angularSep2 params ≤
        calculateConfidenceScore timeDiff angularSep params) := by
  constructor
  · intro timeDiff timeDiff2 angularSep h
    unfold calculateConfidenceScore
    have hdiv : timeDiff / params.timeWindowSeconds ≤
        timeDiff2 / params.timeWindowSeconds :=
      div_le_div_of_nonneg_right h hW.le
    have hmax : max 0 (1 - timeDiff2 / params.timeWindowSeconds) ≤
        max 0 (1 - timeDiff / params.timeWindowSeconds) :=
      max_le_max le_rfl (by linarith)
    nlinarith
  · intro timeDiff angularSep angularSep2 h
    unfold calculateConfidenceScore
    have hdiv : angularSep / params.angularThresholdDeg ≤
        angularSep2 / params.angularThresholdDeg :=
      div_le_div_of_nonneg_right h hT.le
    have hmax : max 0 (1 - angularSep2 / params.angularThresholdDeg) ≤
        max 0 (1 - angularSep / params.angularThresholdDeg) :=
      max_le_max le_rfl (by linarith)
    nlinarith

/-- Witness for `confidenceScore_monotone` with window 600 s, threshold 1°,
comparing timeDiffs 60 ≤ 120 and separations 0.2 ≤ 0.5. -/
theorem confidenceScore_monotone_witness :
    (0 : ℚ) < 600 ∧ (0 : ℚ) < 1 ∧
    calculateConfidenceScore 120 0.2 ⟨600, 1, none⟩ ≤
      calculateConfidenceScore 60 0.2 ⟨600, 1, none⟩ ∧
    calculateConfidenceScore 60 0.5 ⟨600, 1, none⟩ ≤
      calculateConfidenceScore 60 0.2 ⟨600, 1, none⟩ :=
  ⟨by norm_num, by norm_num,
    (confidenceScore_monotone ⟨600, 1, none⟩ (by norm_num) (by norm_num)).1
      60 120 0.2 (by norm_num),
    (confidenceScore_monotone ⟨600, 1, none⟩ (by norm_num) (by norm_num)).2
      60 0.2 0.5 (by norm_num)⟩

/-- C10: `calculateTimeDifference` is total on all pairs of timestamp strings:
it returns NaN (`none`) exactly when either timestamp is unparseable, and when
both parse it returns the non-negative absolute difference in seconds
(millisecond clock difference divided by 1000). -/
theorem timeDifference_total (parse : String → Option ℚ) (time1 time2 : String) :
    (calculateTimeDifference parse time1 time2 = none ↔
      parse time1 = none ∨ parse time2 = none) ∧
    ∀ date1 date2 : ℚ, parse time1 = some date1 → parse time2 = some date2 →
      calculateTimeDifference parse time1 time2 = some (|date2 - date1| / 1000) ∧
        0 ≤ |date2 - date1| / 1000 := by
  constructor
  · unfold calculateTimeDifference
    cases h1 : parse time1 <;> cases h2 : parse time2 <;> simp
  · intro date1 date2 h1 h2
    unfold calculateTimeDifference
    rw [h1, h2]
    exact ⟨rfl, div_nonneg (abs_nonneg _) (by norm_num)⟩

/-- Witness for `timeDifference_total`: a parse map sending "A" to 0 ms and
"B" to 60000 ms; the difference is 60 s, and an unparseable pair gives NaN. -/
theorem timeDifference_total_witness :
    ((fun s : String => if s = "A" then some (0 : ℚ)
        else if s = "B" then some 60000 else none) "A" = some 0) ∧
    ((fun s : String => if s = "A" then some (0 : ℚ)
        else if s = "B" then some 60000 else none) "B" = some 60000) ∧
    (calculateTimeDifference
        (fun s : String => if s = "A" then some (0 : ℚ)
          else if s = "B" then some 60000 else none) "A" "B" =
          some (|(60000 : ℚ) - 0| / 1000) ∧
      0 ≤ |(60000 : ℚ) - 0| / 1000) :=
  ⟨by simp, by simp,
    (timeDifference_total
        (fun s : String => if s = "A" then some (0 : ℚ)
          else if s = "B" then some 60000 else none) "A" "B").2
      0 60000 (by simp) (by simp)⟩

/-- On the two-element list the source builds with `[t1, t2].sort()`,
membership does not depend on the sort: `contains x` holds exactly when `x`
is one of the two types. -/
theorem sortedPair_contains (t1 t2 x : String) :
    ((if t1 ≤ t2 then [t1, t2] else [t2, t1]).contains x) = (x == t1 || x == t2) := by
  split <;> simp only [List.contains, List.elem] <;>
    cases h1 : x == t1 <;> cases h2 : x == t2 <;> simp_all [Bool.or_comm]

/-- Distinct strings are not `==`. -/
theorem str_beq_false_of_ne (a b : String) (h : ¬a = b) : (a == b) = false := by
  cases hab : a == b
  · rfl
  · exact absurd (by simpa using hab) h

/-- Distinct strings are not `==`, arguments swapped. -/
theorem str_beq_false_of_ne_symm (a b : String) (h : ¬a = b) : (b == a) = false := by
  cases hab : b == a
  · rfl
  · exact absurd ((by simpa using hab : b = a)).symm h

/-- `CorrelationEngine.getCorrelationType`
(`src/lib/correlation-engine.ts:59-73`): the two event types are sorted
lexicographically (JavaScript default `Array.prototype.sort`), then a fixed
decision table of `includes` checks is applied.  The fourth branch
(`multi_messenger`) is kept as in the source; it is unreachable for a
two-element list because its condition implies the first branch's. -/
def getCorrelationType (event1 event2 : AstroEvent) : String :=
  let types := if event1.event_type ≤ event2.event_type
    then [event1.event_type, event2.event_type]
    else [event2.event_type, event1.event_type]
  if types.contains "gravitational_wave" && types.contains "gamma_ray_burst" then
    "gw_grb"
  else if types.contains "gravitational_wave" && types.contains "optical_transient" then
    "gw_optical"
  else if types.contains "gamma_ray_burst" && types.contains "optical_transient" then
    "grb_optical"
  else if types.contains "gravitational_wave" && types.contains "gamma_ray_burst"
      && types.contains "optical_transient" then
    "multi_messenger"
  else
    "same_type"

/-- The unordered pair of event types of `e1, e2` is `{a, b}`. -/
def typePairIs (e1 e2 : AstroEvent) (a b : String) : Bool :=
  (e1.event_type == a && e2.event_type == b) ||
    (e1.event_type == b && e2.event_type == a)

/-- C8: Classifier decision table: `getCorrelationType` returns "gw_grb" when
the two event types are gravitational_wave and gamma_ray_burst, "gw_optical"
for gravitational_wave and optical_transient, "grb_optical" for
gamma_ray_burst and optical_transient, and "same_type" in every other case
(both types equal, or any type outside those three); the result is
independent of argument order. -/
theorem correlationType_table (e1 e2 : AstroEvent) :
    getCorrelationType e1 e2 = getCorrelationType e2 e1 ∧
    getCorrelationType e1 e2 =
      (if typePairIs e1 e2 "gravitational_wave" "gamma_ray_burst" then "gw_grb"
       else if typePairIs e1 e2 "gravitational_wave" "optical_transient" then "gw_optical"
       else if typePairIs e1 e2 "gamma_ray_burst" "optical_transient" then "grb_optical"
       else "same_type") := by
  unfold getCorrelationType typePairIs
  simp only [sortedPair_contains]
  by_cases h1 : e1.event_type = "gravitational_wave" <;>
  by_cases h2 : e1.event_type = "gamma_ray_burst" <;>
  by_cases h3 : e1.event_type = "optical_transient" <;>
  by_cases h4 : e2.event_type = "gravitational_wave" <;>
  by_cases h5 : e2.event_type = "gamma_ray_burst" <;>
  by_cases h6 : e2.event_type = "optical_transient" <;>
  simp_all [str_beq_false_of_ne, str_beq_false_of_ne_symm]

/-- An entry of the untyped SIMBAD payload (`res.data.objects`); opaque to
the engine. -/
structure SIMBADObject where
  payload : String
  deriving DecidableEq, Repr

/-- The host/network state read by the fetchers of
`src/lib/supabase.ts:149-210` (the `./astro-fetchers` chunk that
`correlation-engine.ts` imports): one response per event source, plus the
SIMBAD lookup keyed by sky position.  Each source fetcher maps
`res.data.events` to normalised records (fixing `source` and `event_type`
and renaming the raw fields); the raw JSON being untyped, the state carries
the normalised `AstroEvent` lists those maps produce.  `Except.error` is a
rejected promise — axios throws on failure and none of these fetchers
catches. -/
structure Network where
  gwoscEvents : Except String (List AstroEvent)
  ztfEvents : Except String (List AstroEvent)
  heasarcEvents : Except String (List AstroEvent)
  simbadObjects : ℚ → ℚ → Except String (List SIMBADObject)

/-- `fetchSIMBADObjects` (`src/lib/supabase.ts:195-200`): one GET keyed by
`ra`/`dec` returning `res.data.objects`; a rejection propagates to the
awaiting caller. -/
def fetchSIMBADObjects (net : Network) (ra dec : ℚ) :
    Except String (List SIMBADObject) :=
  net.simbadObjects ra dec

/-- `fetchAllAstroEvents` (`src/lib/supabase.ts:202-210`): `Promise.all`
over the three source fetchers, results concatenated
`[...gwosc, ...ztf, ...heasarc]`; any rejection rejects the whole fetch. -/
def fetchAllAstroEvents (net : Network) : Except String (List AstroEvent) :=
  match net.gwoscEvents, net.ztfEvents, net.heasarcEvents with
  | Except.ok gwosc, Except.ok ztf, Except.ok heasarc =>
    Except.ok (gwosc ++ ztf ++ heasarc)
  | Except.error e, _, _ => Except.error e
  | _, Except.error e, _ => Except.error e
  | _, _, Except.error e => Except.error e

/-- Line 94's test `!params.minConfidenceScore || confidenceScore >= params.minConfidenceScore`:
an unset (`undefined`) minimum and a minimum of `0` are both falsy in
JavaScript, so in either case no filtering happens; otherwise the score must
reach the minimum.  The identifier `params` is bound in no enclosing scope
of the source — see `correlateEvents` below for how it is modelled. -/
def minConfidenceAllows (params : CorrelationParams) (confidenceScore : ℚ) : Bool :=
  match params.minConfidenceScore with
  | none => true
  | some m => if m = 0 then true else decide (m ≤ confidenceScore)

/-- The body of the double loop of `CorrelationEngine.correlateEvents`
(`src/lib/correlation-engine.ts:82-111`) for one pair `(event1, event2)`:
compute the time difference and angular separation, apply the two threshold
tests (a NaN time difference fails its `<=` test, hence the `none` case),
score, apply the minimum-confidence test, and — only for a pair passing all
three — `await fetchSIMBADObjects(event1.ra, event1.dec)` (line 99): its
rejection aborts the whole call, and on success the `EventPair` is emitted.
`Except.ok none` is a pair filtered out, with no network effect.  The
pushed `crossMessenger` and `nearbyObjects` extras lie outside the declared
`EventPair` interface (see `EventPair` above), so the SIMBAD payload is
awaited for its effect and failure path only.  `calculateConfidenceScore`
receives, as in the source, a params object holding only the window and the
threshold. -/
def evalPair (parse : String → Option ℚ) (angSep : ℚ → ℚ → ℚ → ℚ → ℚ)
    (net : Network) (params : CorrelationParams) (event1 event2 : AstroEvent) :
    Except String (Option EventPair) :=
  match calculateTimeDifference parse event1.time_utc event2.time_utc with
  | none => Except.ok none
  | some timeDiff =>
    let angularSep := angSep event1.ra event1.dec event2.ra event2.dec
    if timeDiff ≤ params.timeWindowSeconds ∧
        angularSep ≤ params.angularThresholdDeg then
      let confidenceScore := calculateConfidenceScore timeDiff angularSep
        ⟨params.timeWindowSeconds, params.angularThresholdDeg, none⟩
      if minConfidenceAllows params confidenceScore then
        match fetchSIMBADObjects net event1.ra event1.dec with
        | Except.error e => Except.error e
        | Except.ok _objects =>
          Except.ok (some ⟨event1, event2, timeDiff, angularSep,
            getCorrelationType event1 event2, confidenceScore⟩)
      else Except.ok none
    else Except.ok none

/-- The `(i, j)`-with-`i < j` enumeration order of the double loop at
`src/lib/correlation-engine.ts:80-81`. -/
def pairsInOrder (events : List AstroEvent) : List (AstroEvent × AstroEvent) :=
  match events with
  | [] => []
  | e :: rest => rest.map (fun e2 => (e, e2)) ++ pairsInOrder rest

/-- The double loop itself: evaluate each enumerated pair in order, pushing
the emitted pairs onto `results`; the loop body is awaited sequentially, so
the first rejected SIMBAD lookup rejects the whole run with later pairs
unevaluated. -/
def collectPairs (parse : String → Option ℚ) (angSep : ℚ → ℚ → ℚ → ℚ → ℚ)
    (net : Network) (params : CorrelationParams) :
    List (AstroEvent × AstroEvent) → Except String (List EventPair)
  | [] => Except.ok []
  | pr :: rest =>
    match evalPair parse angSep net params pr.1 pr.2 with
    | Except.error e => Except.error e
    | Except.ok none => collectPairs parse angSep net params rest
    | Except.ok (some p) =>
      match collectPairs parse angSep net params rest with
      | Except.error e => Except.error e
      | Except.ok ps => Except.ok (p :: ps)

/-- The `results` list of `correlateEvents` as it stands after the double
loop, before sorting: fetch the events, enumerate the pairs, run the loop. -/
def candidatePairs (parse : String → Option ℚ) (angSep : ℚ → ℚ → ℚ → ℚ → ℚ)
    (net : Network) (params : CorrelationParams) :
    Except String (List EventPair) :=
  match fetchAllAstroEvents net with
  | Except.error e => Except.error e
  | Except.ok events =>
    collectPairs parse angSep net params (pairsInOrder events)

/-- The ordering of `results.sort((a, b) => b.confidenceScore - a.confidenceScore)`:
`a` precedes (or stays before) `b` exactly when this comparator is ≤ 0. -/
def byConfidenceDesc (a b : EventPair) : Prop :=
  b.confidenceScore ≤ a.confidenceScore

instance : DecidableRel byConfidenceDesc := fun a b =>
  inferInstanceAs (Decidable (b.confidenceScore ≤ a.confidenceScore))

instance : IsTotal EventPair byConfidenceDesc :=
  ⟨fun a b => le_total b.confidenceScore a.confidenceScore⟩

instance : IsTrans EventPair byConfidenceDesc :=
  ⟨fun _ _ _ h1 h2 => le_trans h2 h1⟩

/-- `CorrelationEngine.correlateEvents` (`src/lib/correlation-engine.ts:76-118`).

The source's only parameter is one destructured options object
`{ timeWindowSeconds = 600, angularThresholdDeg = 1.0 }` (the defaults
apply at JavaScript call sites that omit the fields); it has NO events
parameter — it awaits `fetchAllAstroEvents()` itself — although both
in-repo callers invoke it as `correlateEvents(events, {...})`, which makes
the supplied events array the destructured options object and discards the
second argument.  The network reads are modelled by the explicit `net`
state; a rejection of any awaited fetch (the initial event fetch, or any
per-qualifying-pair SIMBAD lookup inside the loop) rejects the call.

Modelled from the spec: only the identifier `params` of line 94, which is
bound in no enclosing scope of the source (missing code; TypeScript rejects
the reference).  Per both in-repo callers and the spec's
`correlate(events, params)` contract it is modelled as the caller's
`CorrelationParams` record, identified with the options record `options`
here; only `params.minConfidenceScore` is ever read, so nothing else of
that record is assumed.  Gates and scoring use the two destructured
thresholds exactly as in the source.

JavaScript's `Array.prototype.sort` is stable, and with the comparator
`(a, b) => b.confidenceScore - a.confidenceScore` it orders by descending
`confidenceScore` keeping the enumeration order on ties; the stable
insertion sort by `byConfidenceDesc` produces that exact list. -/
def correlateEvents (parse : String → Option ℚ) (angSep : ℚ → ℚ → ℚ → ℚ → ℚ)
    (net : Network) (options : CorrelationParams) :
    Except String (List EventPair) :=
  match candidatePairs parse angSep net options with
  | Except.error e => Except.error e
  | Except.ok results => Except.ok (List.insertionSort byConfidenceDesc results)

/-- Demo events used in concrete evaluations: four events at fixed sky
positions with parseable, coincident timestamps. -/
def evA : AstroEvent := ⟨"A", "EVA", "gravitational_wave", "LIGO", "T0", 10, 0⟩

def evB : AstroEvent := ⟨"B", "EVB", "gamma_ray_burst", "Fermi", "T0", 10, 0⟩

def evC : AstroEvent := ⟨"C", "EVC", "optical_transient", "ZTF", "T0", 10, 0⟩

def evD : AstroEvent := ⟨"D", "EVD", "neutrino", "IceCube", "T0", 10, 0⟩

/-- A parse map under which every demo timestamp reads as 0 ms. -/
def demoParse : String → Option ℚ := fun _ => some 0

/-- A separation function that is identically zero (all demo events share
one sky position). -/
def demoSep : ℚ → ℚ → ℚ → ℚ → ℚ := fun _ _ _ _ => 0

/-- A network state whose GWOSC source returns the two coincident demo
events and whose SIMBAD lookups succeed with an empty object list. -/
def demoNetwork : Network :=
  ⟨Except.ok [evA, evB], Except.ok [], Except.ok [], fun _ _ => Except.ok []⟩

/-- A network state with no events at all. -/
def emptyNetwork : Network :=
  ⟨Except.ok [], Except.ok [], Except.ok [], fun _ _ => Except.ok []⟩

/-- The body of the inner scan of `CorrelationEngine.findEventClusters`
(`src/lib/correlation-engine.ts:132-141`) for one `otherCorr`, given the
current cluster and claimed-id set: when exactly one endpoint is already in
the cluster and the other is unclaimed, the unclaimed endpoint is appended
and claimed.  The JavaScript `Set` is a list of ids with `contains`. -/
def clusterScanStep (cp : List AstroEvent × List String) (otherCorr : EventPair) :
    List AstroEvent × List String :=
  let cluster := cp.1
  let processedEvents := cp.2
  if (cluster.any (fun e => e.id == otherCorr.event1.id)
        && !(processedEvents.contains otherCorr.event2.id))
      || (cluster.any (fun e => e.id == otherCorr.event2.id)
        && !(processedEvents.contains otherCorr.event1.id)) then
    let newEvent := if cluster.any (fun e => e.id == otherCorr.event1.id)
      then otherCorr.event2 else otherCorr.event1
    (cluster ++ [newEvent], newEvent.id :: processedEvents)
  else cp

/-- The inner `for (const otherCorr of correlations)` scan
(`src/lib/correlation-engine.ts:132-141`): a single pass over the whole pair
list, skipping the seeding pair itself (the source's `otherCorr !==
correlation` is object identity; the pairs carry their list position to
model it). -/
def clusterScan (selfIdx : Nat) (correlationsIdx : List (Nat × EventPair))
    (start : List AstroEvent × List String) : List AstroEvent × List String :=
  correlationsIdx.foldl
    (fun cp ic => if ic.1 ≠ selfIdx then clusterScanStep cp ic.2 else cp) start

/-- The body of the outer `for (const correlation of correlations)` loop
(`src/lib/correlation-engine.ts:125-145`): a pair whose two endpoints are
both unclaimed seeds a new cluster of its two events (both claimed), then
runs the inner scan; any other pair leaves the state unchanged. -/
def findClustersStep (correlationsIdx : List (Nat × EventPair))
    (acc : List (List AstroEvent) × List String) (ic : Nat × EventPair) :
    List (List AstroEvent) × List String :=
  let clusters := acc.1
  let processedEvents := acc.2
  let correlation := ic.2
  if !(processedEvents.contains correlation.event1.id)
      && !(processedEvents.contains correlation.event2.id) then
    let seeded := clusterScan ic.1 correlationsIdx
      ([correlation.event1, correlation.event2],
        correlation.event2.id :: correlation.event1.id :: processedEvents)
    (clusters ++ [seeded.1], seeded.2)
  else acc

/-- `CorrelationEngine.findEventClusters`
(`src/lib/correlation-engine.ts:121-148`). -/
def findEventClusters (correlations : List EventPair) : List (List AstroEvent) :=
  ((correlations.enum).foldl (findClustersStep correlations.enum) ([], [])).1

/-- A claimed-id list keeps its members when an id is pushed. -/
lemma contains_cons_of_contains (a : String) (l : List String) (x : String)
    (h : l.contains x = true) : (a :: l).contains x = true := by
  show List.elem x (a :: l) = true
  unfold List.elem
  cases hx : x == a
  · exact h
  · rfl

/-- One inner-scan step only ever appends to the cluster. -/
lemma clusterScanStep_fst (cp : List AstroEvent × List String) (oc : EventPair) :
    ∃ add : List AstroEvent, (clusterScanStep cp oc).1 = cp.1 ++ add := by
  unfold clusterScanStep
  dsimp only
  split
  · exact ⟨_, rfl⟩
  · exact ⟨[], (List.append_nil _).symm⟩

/-- One inner-scan step never unclaims an id. -/
lemma clusterScanStep_contains_mono (cp : List AstroEvent × List String)
    (oc : EventPair) (x : String) (h : cp.2.contains x = true) :
    (clusterScanStep cp oc).2.contains x = true := by
  unfold clusterScanStep
  dsimp only
  split
  · exact contains_cons_of_contains _ _ _ h
  · exact h

/-- The inner scan only ever appends to the cluster it was given. -/
lemma clusterScan_fst_extends (selfIdx : Nat)
    (correlationsIdx : List (Nat × EventPair)) :
    ∀ start : List AstroEvent × List String,
      ∃ rest : List AstroEvent,
        (clusterScan selfIdx correlationsIdx start).1 = start.1 ++ rest := by
  induction correlationsIdx with
  | nil => exact fun start => ⟨[], (List.append_nil _).symm⟩
  | cons ic l ih =>
    intro start
    unfold clusterScan at ih ⊢
    rw [List.foldl_cons]
    rcases ih (if ic.1 ≠ selfIdx then clusterScanStep start ic.2 else start) with
      ⟨rest, hrest⟩
    have hstep : ∃ add : List AstroEvent,
        (if ic.1 ≠ selfIdx then clusterScanStep start ic.2 else start).1 =
          start.1 ++ add := by
      split
      · exact clusterScanStep_fst start ic.2
      · exact ⟨[], (List.append_nil _).symm⟩
    rcases hstep with ⟨add, hadd⟩
    exact ⟨add ++ rest, by rw [hrest, hadd, List.append_assoc]⟩

/-- The inner scan never unclaims an id. -/
lemma clusterScan_contains_mono (selfIdx : Nat)
    (correlationsIdx : List (Nat × EventPair)) :
    ∀ (start : List AstroEvent × List String) (x : String),
      start.2.contains x = true →
        (clusterScan selfIdx correlationsIdx start).2.contains x = true := by
  induction correlationsIdx with
  | nil => exact fun start x h => h
  | cons ic l ih =>
    intro start x h
    unfold clusterScan at ih ⊢
    rw [List.foldl_cons]
    refine ih _ x ?_
    split
    · exact clusterScanStep_contains_mono start ic.2 x h
    · exact h

/-- A pushed id is claimed. -/
lemma contains_cons_self (a : String) (l : List String) :
    (a :: l).contains a = true := by
  show List.elem a (a :: l) = true
  unfold List.elem
  rw [beq_self_eq_true]

/-- C3 (amended): when `findEventClusters` iterates the pair list in order,
a pair seeds a new cluster — appended to the cluster list, containing the
pair's two events as its first two members, both ids then claimed — exactly
when BOTH of its endpoints are still unclaimed; a pair with either endpoint
already claimed contributes no new cluster and leaves the state unchanged
(its unclaimed endpoint can only be absorbed into an earlier cluster by the
inner scan). -/
theorem findClusters_seeding (correlations : List EventPair)
    (idx : List (Nat × EventPair)) (clusters : List (List AstroEvent))
    (processed : List String) (i : Nat) (c : EventPair) :
    findEventClusters correlations =
      ((correlations.enum).foldl (findClustersStep correlations.enum) ([], [])).1 ∧
    (processed.contains c.event1.id = false →
      processed.contains c.event2.id = false →
      ∃ (rest : List AstroEvent) (processed2 : List String),
        findClustersStep idx (clusters, processed) (i, c) =
          (clusters ++ [c.event1 :: c.event2 :: rest], processed2) ∧
        processed2.contains c.event1.id = true ∧
        processed2.contains c.event2.id = true) ∧
    ((processed.contains c.event1.id = true ∨
        processed.contains c.event2.id = true) →
      findClustersStep idx (clusters, processed) (i, c) = (clusters, processed)) := by
  refine ⟨rfl, ?_, ?_⟩
  · intro h1 h2
    unfold findClustersStep
    dsimp only
    rw [if_pos (by rw [h1, h2]; rfl)]
    rcases clusterScan_fst_extends i idx
        ([c.event1, c.event2], c.event2.id :: c.event1.id :: processed) with
      ⟨rest, hrest⟩
    refine ⟨rest, (clusterScan i idx
      ([c.event1, c.event2], c.event2.id :: c.event1.id :: processed)).2,
      ?_, ?_, ?_⟩
    · rw [hrest]
      exact rfl
    · exact clusterScan_contains_mono i idx _ _
        (contains_cons_of_contains _ _ _ (contains_cons_self _ _))
    · exact clusterScan_contains_mono i idx _ _ (contains_cons_self _ _)
  · intro h
    unfold findClustersStep
    dsimp only
    have hcond : ¬((!(processed.contains c.event1.id)
        && !(processed.contains c.event2.id)) = true) := by
      rcases h with h | h <;> rw [h] <;> simp
    rw [if_neg hcond]

/-- Demo pairs: (A,B), (C,D), (A,C), listed in that order. -/
def pairAB : EventPair := ⟨evA, evB, 0, 0, "gw_grb", 1⟩

def pairCD : EventPair := ⟨evC, evD, 0, 0, "same_type", 1⟩

def pairAC : EventPair := ⟨evA, evC, 0, 0, "gw_optical", 1⟩

/-- Witness for `findClusters_seeding`: the pair (C, D) over an empty claimed
set seeds the cluster [C, D]. -/
theorem findClusters_seeding_witness :
    ([] : List String).contains pairCD.event1.id = false ∧
    ([] : List String).contains pairCD.event2.id = false ∧
    ∃ (rest : List AstroEvent) (processed2 : List String),
      findClustersStep [] (([], []) : List (List AstroEvent) × List String)
          (0, pairCD) =
        ([] ++ [pairCD.event1 :: pairCD.event2 :: rest], processed2) ∧
      processed2.contains pairCD.event1.id = true ∧
      processed2.contains pairCD.event2.id = true :=
  ⟨rfl, rfl, (findClusters_seeding [] [] [] [] 0 pairCD).2.1 rfl rfl⟩

/-- Counterexample to C3 as stated: on the pair list [(A,B), (C,D), (A,C)]
the seeding pass produces the single cluster [A, B, C] (the inner scan of
the (A,B) seed absorbs C through the later pair (A,C)); when the outer loop
then reaches (C, D), its endpoint D is still unclaimed — D appears in no
cluster at all — yet the pair starts no new cluster, because the source
seeds only when BOTH endpoints are unclaimed (`!processed.has(event1) &&
!processed.has(event2)`), not when at least one is. -/
theorem findClusters_seeding_counterexample :
    findEventClusters [pairAB, pairCD, pairAC] = [[evA, evB, evC]] ∧
    (findEventClusters [pairAB, pairCD, pairAC]).all
      (fun cluster => cluster.all (fun e => !(e.id == "D"))) = true :=
  ⟨rfl, rfl⟩

/-- A parsed time difference is never negative (it is an absolute value of a
millisecond difference divided by 1000). -/
lemma timeDifference_nonneg (parse : String → Option ℚ) (time1 time2 : String)
    (d : ℚ) (h : calculateTimeDifference parse time1 time2 = some d) : 0 ≤ d := by
  unfold calculateTimeDifference at h
  cases h1 : parse time1 <;> cases h2 : parse time2 <;> rw [h1, h2] at h <;>
    simp_all
  subst h
  positivity

/-- The minimum-confidence test passes exactly when the score reaches every
set minimum, provided the score is non-negative (which every confidence
score is); the JavaScript-falsy minimum `0` filters nothing, and a score
that is ≥ 0 reaches it anyway. -/
lemma minConfidenceAllows_iff (params : CorrelationParams) (score : ℚ)
    (hscore : 0 ≤ score) :
    minConfidenceAllows params score = true ↔
      ∀ m : ℚ, params.minConfidenceScore = some m → m ≤ score := by
  unfold minConfidenceAllows
  cases hmc : params.minConfidenceScore with
  | none => simp
  | some m =>
    by_cases hm : m = 0
    · subst hm
      simp [hscore]
    · simp [hm]

/-- Characterisation of one loop-body evaluation: it emits a pair exactly
when the two threshold tests and the minimum-confidence test pass and the
SIMBAD lookup succeeds, and the emitted pair is built from the computed
quantities. -/
lemma evalPair_ok_some_iff (parse : String → Option ℚ)
    (angSep : ℚ → ℚ → ℚ → ℚ → ℚ) (net : Network) (params : CorrelationParams)
    (event1 event2 : AstroEvent) (p : EventPair) :
    evalPair parse angSep net params event1 event2 = Except.ok (some p) ↔
      ∃ timeDiff : ℚ,
        calculateTimeDifference parse event1.time_utc event2.time_utc =
          some timeDiff ∧
        timeDiff ≤ params.timeWindowSeconds ∧
        angSep event1.ra event1.dec event2.ra event2.dec ≤
          params.angularThresholdDeg ∧
        minConfidenceAllows params
          (calculateConfidenceScore timeDiff
            (angSep event1.ra event1.dec event2.ra event2.dec)
            ⟨params.timeWindowSeconds, params.angularThresholdDeg, none⟩) = true ∧
        (∃ objects : List SIMBADObject,
          fetchSIMBADObjects net event1.ra event1.dec = Except.ok objects) ∧
        p = ⟨event1, event2, timeDiff,
          angSep event1.ra event1.dec event2.ra event2.dec,
          getCorrelationType event1 event2,
          calculateConfidenceScore timeDiff
            (angSep event1.ra event1.dec event2.ra event2.dec)
            ⟨params.timeWindowSeconds, params.angularThresholdDeg, none⟩⟩ := by
  unfold evalPair
  cases htd : calculateTimeDifference parse event1.time_utc event2.time_utc with
  | none => simp
  | some timeDiff =>
    dsimp only
    constructor
    · intro h
      by_cases hgate : timeDiff ≤ params.timeWindowSeconds ∧
          angSep event1.ra event1.dec event2.ra event2.dec ≤
            params.angularThresholdDeg
      · rw [if_pos hgate] at h
        by_cases hmin : minConfidenceAllows params
            (calculateConfidenceScore timeDiff
              (angSep event1.ra event1.dec event2.ra event2.dec)
              ⟨params.timeWindowSeconds, params.angularThresholdDeg, none⟩) = true
        · rw [if_pos hmin] at h
          cases hsim : fetchSIMBADObjects net event1.ra event1.dec with
          | error e =>
            rw [hsim] at h
            exact absurd h (by simp)
          | ok objects =>
            rw [hsim] at h
            refine ⟨timeDiff, rfl, hgate.1, hgate.2, hmin, ⟨objects, rfl⟩, ?_⟩
            exact (Option.some_injective _ (Except.ok.inj h)).symm
        · rw [if_neg hmin] at h
          exact absurd h (by simp)
      · rw [if_neg hgate] at h
        exact absurd h (by simp)
    · rintro ⟨td, htd2, h1, h2, hmin, ⟨objects, hsim⟩, hp⟩
      have : td = timeDiff := Option.some_injective _ htd2.symm
      subst this
      rw [if_pos ⟨h1, h2⟩, if_pos hmin, hsim, hp]

/-- A pair that passes all three tests cannot evaluate to a filtered-out or
failed result once its evaluation is known to be error-free: the SIMBAD
lookup must have succeeded, so the built pair is emitted. -/
lemma evalPair_ok_of_gates (parse : String → Option ℚ)
    (angSep : ℚ → ℚ → ℚ → ℚ → ℚ) (net : Network) (params : CorrelationParams)
    (event1 event2 : AstroEvent) (timeDiff : ℚ) (r : Option EventPair)
    (htd : calculateTimeDifference parse event1.time_utc event2.time_utc =
      some timeDiff)
    (h1 : timeDiff ≤ params.timeWindowSeconds)
    (h2 : angSep event1.ra event1.dec event2.ra event2.dec ≤
      params.angularThresholdDeg)
    (hmin : minConfidenceAllows params
      (calculateConfidenceScore timeDiff
        (angSep event1.ra event1.dec event2.ra event2.dec)
        ⟨params.timeWindowSeconds, params.angularThresholdDeg, none⟩) = true)
    (hr : evalPair parse angSep net params event1 event2 = Except.ok r) :
    evalPair parse angSep net params event1 event2 =
      Except.ok (some ⟨event1, event2, timeDiff,
        angSep event1.ra event1.dec event2.ra event2.dec,
        getCorrelationType event1 event2,
        calculateConfidenceScore timeDiff
          (angSep event1.ra event1.dec event2.ra event2.dec)
          ⟨params.timeWindowSeconds, params.angularThresholdDeg, none⟩⟩) := by
  unfold evalPair at hr ⊢
  rw [htd] at hr ⊢
  dsimp only at hr ⊢
  rw [if_pos ⟨h1, h2⟩, if_pos hmin] at hr ⊢
  cases hsim : fetchSIMBADObjects net event1.ra event1.dec with
  | error e =>
    rw [hsim] at hr
    exact absurd hr (by simp)
  | ok objects => rfl

/-- Membership in a successfully collected result list is exactly emission
of the pair by some enumerated pair's loop-body evaluation. -/
lemma collectPairs_ok_mem (parse : String → Option ℚ)
    (angSep : ℚ → ℚ → ℚ → ℚ → ℚ) (net : Network) (params : CorrelationParams) :
    ∀ (prs : List (AstroEvent × AstroEvent)) (results : List EventPair),
      collectPairs parse angSep net params prs = Except.ok results →
      ∀ p : EventPair,
        (p ∈ results ↔
          ∃ pr ∈ prs, evalPair parse angSep net params pr.1 pr.2 =
            Except.ok (some p)) := by
  intro prs
  induction prs with
  | nil =>
    intro results h p
    have : results = [] := (Except.ok.inj h).symm
    subst this
    simp
  | cons pr rest ih =>
    intro results h p
    unfold collectPairs at h
    cases he : evalPair parse angSep net params pr.1 pr.2 with
    | error e =>
      rw [he] at h
      exact absurd h (by simp)
    | ok o =>
      rw [he] at h
      cases o with
      | none =>
        dsimp only at h
        rw [ih results h p]
        constructor
        · rintro ⟨q, hq, hev⟩
          exact ⟨q, List.mem_cons_of_mem pr hq, hev⟩
        · rintro ⟨q, hq, hev⟩
          rcases List.mem_cons.mp hq with hq | hq
          · subst hq
            rw [he] at hev
            exact absurd (Except.ok.inj hev) (by simp)
          · exact ⟨q, hq, hev⟩
      | some q =>
        dsimp only at h
        cases hrest : collectPairs parse angSep net params rest with
        | error e =>
          rw [hrest] at h
          exact absurd h (by simp)
        | ok ps =>
          rw [hrest] at h
          have hres : results = q :: ps := (Except.ok.inj h).symm
          subst hres
          constructor
          · intro hp
            rcases List.mem_cons.mp hp with hp | hp
            · subst hp
              exact ⟨pr, List.mem_cons_self pr rest, he⟩
            · rcases (ih ps hrest p).mp hp with ⟨x, hx, hev⟩
              exact ⟨x, List.mem_cons_of_mem pr hx, hev⟩
          · rintro ⟨x, hx, hev⟩
            rcases List.mem_cons.mp hx with hx | hx
            · subst hx
              rw [he] at hev
              have hqp : q = p := Option.some_injective _ (Except.ok.inj hev)
              rw [hqp]
              exact List.mem_cons_self p ps
            · exact List.mem_cons_of_mem q ((ih ps hrest p).mpr ⟨x, hx, hev⟩)

/-- A successful run evaluated every enumerated pair without error. -/
lemma collectPairs_ok_forall (parse : String → Option ℚ)
    (angSep : ℚ → ℚ → ℚ → ℚ → ℚ) (net : Network) (params : CorrelationParams) :
    ∀ (prs : List (AstroEvent × AstroEvent)) (results : List EventPair),
      collectPairs parse angSep net params prs = Except.ok results →
      ∀ pr ∈ prs, ∃ r : Option EventPair,
        evalPair parse angSep net params pr.1 pr.2 = Except.ok r := by
  intro prs
  induction prs with
  | nil =>
    intro results _ pr hpr
    exact absurd hpr (List.not_mem_nil pr)
  | cons x rest ih =>
    intro results h pr hpr
    unfold collectPairs at h
    cases he : evalPair parse angSep net params x.1 x.2 with
    | error e =>
      rw [he] at h
      exact absurd h (by simp)
    | ok o =>
      rw [he] at h
      rcases List.mem_cons.mp hpr with hpr | hpr
      · subst hpr
        exact ⟨o, he⟩
      · cases o with
        | none => exact ih results h pr hpr
        | some q =>
          dsimp only at h
          cases hrest : collectPairs parse angSep net params rest with
          | error e =>
            rw [hrest] at h
            exact absurd h (by simp)
          | ok ps => exact ih ps hrest pr hpr

/-- A run in which every enumerated pair is filtered out collects nothing
and touches no network. -/
lemma collectPairs_eq_nil (parse : String → Option ℚ)
    (angSep : ℚ → ℚ → ℚ → ℚ → ℚ) (net : Network) (params : CorrelationParams) :
    ∀ prs : List (AstroEvent × AstroEvent),
      (∀ pr ∈ prs, evalPair parse angSep net params pr.1 pr.2 =
        Except.ok none) →
      collectPairs parse angSep net params prs = Except.ok [] := by
  intro prs
  induction prs with
  | nil => intro _; rfl
  | cons x rest ih =>
    intro h
    unfold collectPairs
    rw [h x (List.mem_cons_self x rest)]
    exact ih fun pr hpr => h pr (List.mem_cons_of_mem x hpr)

/-- Inserting `a` into `l` with `orderedInsert byConfidenceDesc` puts `a`
before every element of equal score and leaves the equal-score subsequence
otherwise unchanged. -/
lemma filter_score_orderedInsert (s : ℚ) (a : EventPair) (l : List EventPair) :
    (List.orderedInsert byConfidenceDesc a l).filter
        (fun p => decide (p.confidenceScore = s)) =
      if a.confidenceScore = s
        then a :: l.filter (fun p => decide (p.confidenceScore = s))
        else l.filter (fun p => decide (p.confidenceScore = s)) := by
  induction l with
  | nil =>
    by_cases ha : a.confidenceScore = s <;>
      simp [List.orderedInsert, List.filter, ha]
  | cons b l ih =>
    by_cases hr : byConfidenceDesc a b
    · by_cases ha : a.confidenceScore = s <;>
        simp [List.orderedInsert, hr, List.filter_cons, ha]
    · have hlt : a.confidenceScore < b.confidenceScore := by
        unfold byConfidenceDesc at hr
        linarith [lt_of_not_le hr]
      by_cases ha : a.confidenceScore = s
      · have hb : ¬b.confidenceScore = s := by
          intro hbs
          rw [ha] at hlt
          rw [hbs] at hlt
          exact lt_irrefl s hlt
        simp [List.orderedInsert, hr, List.filter_cons, ha, hb, ih]
      · by_cases hb : b.confidenceScore = s <;>
          simp [List.orderedInsert, hr, List.filter_cons, ha, hb, ih]

/-- The insertion sort by descending score preserves, for every score value,
the subsequence of pairs carrying that score: it is a stable sort. -/
lemma filter_score_insertionSort (s : ℚ) (l : List EventPair) :
    (List.insertionSort byConfidenceDesc l).filter
        (fun p => decide (p.confidenceScore = s)) =
      l.filter (fun p => decide (p.confidenceScore = s)) := by
  induction l with
  | nil => rfl
  | cons a l ih =>
    by_cases ha : a.confidenceScore = s <;>
      simp [List.insertionSort, filter_score_orderedInsert, ha, ih,
        List.filter_cons]

/-- C4 (amended): `correlateEvents` performs no parameter validation and has
no `InvalidParameters` path; with a negative `timeWindowSeconds`, once the
event fetch succeeds the call resolves normally with the empty result list —
every pair's non-negative time difference fails the `timeDiff <=
timeWindowSeconds` test, so no pair is scored, no SIMBAD lookup happens and
nothing can fail. -/
theorem correlate_no_validation (parse : String → Option ℚ)
    (angSep : ℚ → ℚ → ℚ → ℚ → ℚ) (net : Network) (options : CorrelationParams)
    (events : List AstroEvent)
    (hW : options.timeWindowSeconds < 0)
    (hfetch : fetchAllAstroEvents net = Except.ok events) :
    correlateEvents parse angSep net options = Except.ok [] := by
  have hnone : ∀ pr ∈ pairsInOrder events,
      evalPair parse angSep net options pr.1 pr.2 = Except.ok none := by
    intro pr _
    unfold evalPair
    cases htd : calculateTimeDifference parse pr.1.time_utc pr.2.time_utc with
    | none => rfl
    | some d =>
      have hd : 0 ≤ d := timeDifference_nonneg _ _ _ _ htd
      have hgate : ¬(d ≤ options.timeWindowSeconds ∧
          angSep pr.1.ra pr.1.dec pr.2.ra pr.2.dec ≤
            options.angularThresholdDeg) := by
        rintro ⟨hle, -⟩
        linarith
      dsimp only
      rw [if_neg hgate]
  have hcol : collectPairs parse angSep net options (pairsInOrder events) =
      Except.ok [] :=
    collectPairs_eq_nil parse angSep net options (pairsInOrder events) hnone
  unfold correlateEvents candidatePairs
  rw [hfetch]
  dsimp only
  rw [hcol]

  rfl

lemma demo_timeDiff : calculateTimeDifference demoParse evA.time_utc evB.time_utc = some 0 := by
  norm_num [calculateTimeDifference, demoParse]

lemma demo_score : calculateConfidenceScore 0 0 ⟨600, 1, none⟩ = 1 := by
  norm_num [calculateConfidenceScore]

lemma demo_type : getCorrelationType evA evB = "gw_grb" := by
  unfold getCorrelationType
  simp only [sortedPair_contains]
  simp [evA, evB, str_beq_false_of_ne, str_beq_false_of_ne_symm]

lemma demoPair_eval :
    evalPair demoParse demoSep demoNetwork ⟨600, 1, none⟩ evA evB =
      Except.ok (some ⟨evA, evB, 0, 0, "gw_grb", 1⟩) :=
  (evalPair_ok_some_iff demoParse demoSep demoNetwork ⟨600, 1, none⟩ evA evB
      ⟨evA, evB, 0, 0, "gw_grb", 1⟩).mpr
    ⟨0, demo_timeDiff, by norm_num, by norm_num [demoSep], by rfl, ⟨[], rfl⟩,
      by rw [show demoSep evA.ra evA.dec evB.ra evB.dec = 0 from rfl, demo_score,
        demo_type]⟩

lemma demo_run_eval :
    correlateEvents demoParse demoSep demoNetwork ⟨600, 1, none⟩ =
      Except.ok [⟨evA, evB, 0, 0, "gw_grb", 1⟩] := by
  have hfetch : fetchAllAstroEvents demoNetwork = Except.ok [evA, evB] := rfl
  simp [correlateEvents, candidatePairs, hfetch, pairsInOrder, collectPairs,
    demoPair_eval, List.insertionSort, List.orderedInsert]

lemma empty_run_eval :
    correlateEvents demoParse demoSep emptyNetwork ⟨600, 1, none⟩ =
      Except.ok [] := by
  have hfetch : fetchAllAstroEvents emptyNetwork = Except.ok [] := rfl
  simp [correlateEvents, candidatePairs, hfetch, pairsInOrder, collectPairs,
    List.insertionSort]

lemma demoPair_eval_neg :
    evalPair demoParse demoSep demoNetwork ⟨-1, 1, none⟩ evA evB =
      Except.ok none := by
  have htd := demo_timeDiff
  simp [evalPair, htd, demoSep]


/-- Counterexample to C4 as stated: with `timeWindowSeconds = -1 ≤ 0` the
call does not fail with an `InvalidParameters` error — no such error exists
anywhere in the function — and it does produce a result list (the empty
one), even over a network whose two coincident events would pair up under a
positive window. -/
theorem correlate_no_validation_counterexample :
    correlateEvents demoParse demoSep demoNetwork ⟨-1, 1, none⟩ =
      Except.ok [] := by
  have hfetch : fetchAllAstroEvents demoNetwork = Except.ok [evA, evB] := rfl
  simp [correlateEvents, candidatePairs, hfetch, pairsInOrder, collectPairs,
    demoPair_eval_neg, List.insertionSort]

/-- Witness for `correlate_no_validation` at `timeWindowSeconds = -1` over
the demo network. -/
theorem correlate_no_validation_witness :
    (-1 : ℚ) < 0 ∧
    fetchAllAstroEvents demoNetwork = Except.ok [evA, evB] ∧
    correlateEvents demoParse demoSep demoNetwork ⟨-1, 1, some 0.1⟩ =
      Except.ok [] :=
  ⟨by norm_num, rfl,
    correlate_no_validation demoParse demoSep demoNetwork ⟨-1, 1, some 0.1⟩
      [evA, evB] (by norm_num) rfl⟩

/-- C5: Output order: whenever `correlateEvents` resolves successfully, the
returned list is sorted by `confidenceScore` in descending order, and the
sort is stable: for each score value, the pairs carrying it appear exactly
as in the pre-sort `results` list built in `(i, j)`, `i < j` enumeration
order (`candidatePairs`). -/
theorem correlate_sorted_stable (parse : String → Option ℚ)
    (angSep : ℚ → ℚ → ℚ → ℚ → ℚ) (net : Network) (options : CorrelationParams)
    (out : List EventPair)
    (hok : correlateEvents parse angSep net options = Except.ok out) :
    List.Pairwise
      (fun p q : EventPair => q.confidenceScore ≤ p.confidenceScore) out ∧
    ∃ results : List EventPair,
      candidatePairs parse angSep net options = Except.ok results ∧
      ∀ s : ℚ, out.filter (fun p => decide (p.confidenceScore = s)) =
        results.filter (fun p => decide (p.confidenceScore = s)) := by
  unfold correlateEvents at hok
  cases hcand : candidatePairs parse angSep net options with
  | error e =>
    rw [hcand] at hok
    exact absurd hok (by simp)
  | ok results =>
    rw [hcand] at hok
    have hout : out = List.insertionSort byConfidenceDesc results :=
      (Except.ok.inj hok).symm
    subst hout
    exact ⟨List.sorted_insertionSort byConfidenceDesc results, results, rfl,
      fun s => filter_score_insertionSort s results⟩

/-- Witness for `correlate_sorted_stable` on the demo network's one-pair
run. -/
theorem correlate_sorted_stable_witness :
    correlateEvents demoParse demoSep demoNetwork ⟨600, 1, none⟩ =
      Except.ok [⟨evA, evB, 0, 0, "gw_grb", 1⟩] ∧
    (List.Pairwise
        (fun p q : EventPair => q.confidenceScore ≤ p.confidenceScore)
        [(⟨evA, evB, 0, 0, "gw_grb", 1⟩ : EventPair)] ∧
      ∃ results : List EventPair,
        candidatePairs demoParse demoSep demoNetwork ⟨600, 1, none⟩ =
          Except.ok results ∧
        ∀ s : ℚ,
          ([(⟨evA, evB, 0, 0, "gw_grb", 1⟩ : EventPair)]).filter
              (fun p => decide (p.confidenceScore = s)) =
            results.filter (fun p => decide (p.confidenceScore = s))) :=
  ⟨demo_run_eval,
    correlate_sorted_stable demoParse demoSep demoNetwork ⟨600, 1, none⟩
      [⟨evA, evB, 0, 0, "gw_grb", 1⟩] demo_run_eval⟩

/-- C7 (amended): `correlateEvents` is deterministic only relative to the
host state: two calls made under identical network state, identical
host `Date` parsing and identical params return identical,
identically-ordered results.  (It is not a function of any supplied events
list — it has no such parameter and reads the network instead; see the
counterexample.) -/
theorem correlate_network_deterministic (parse : String → Option ℚ)
    (angSep : ℚ → ℚ → ℚ → ℚ → ℚ) (net1 net2 : Network)
    (options1 options2 : CorrelationParams)
    (hnet : net1 = net2) (hopts : options1 = options2) :
    correlateEvents parse angSep net1 options1 =
      correlateEvents parse angSep net2 options2 := by
  rw [hnet, hopts]

/-- Witness for `correlate_network_deterministic` on a concrete repeated
call. -/
theorem correlate_network_deterministic_witness :
    demoNetwork = demoNetwork ∧
    (⟨600, 1, none⟩ : CorrelationParams) = ⟨600, 1, none⟩ ∧
    correlateEvents demoParse demoSep demoNetwork ⟨600, 1, none⟩ =
      correlateEvents demoParse demoSep demoNetwork ⟨600, 1, none⟩ :=
  ⟨rfl, rfl,
    correlate_network_deterministic demoParse demoSep demoNetwork demoNetwork
      ⟨600, 1, none⟩ ⟨600, 1, none⟩ rfl rfl⟩

/-- Counterexample to C7 as stated: the output is not a function of a
supplied events list and params — there is no events parameter, and with
every supplied argument held fixed the result still changes with the
network state (here: a network carrying two coincident events versus one
carrying none). -/
theorem correlate_not_pure_counterexample :
    correlateEvents demoParse demoSep demoNetwork ⟨600, 1, none⟩ ≠
      correlateEvents demoParse demoSep emptyNetwork ⟨600, 1, none⟩ := by
  rw [demo_run_eval, empty_run_eval]
  intro h
  exact List.cons_ne_nil _ _ (Except.ok.inj h)

/-- The demo pair also passes the API route's default minimum-confidence
floor of 0.1 (its score is 1). -/
lemma demoPair_eval01 :
    evalPair demoParse demoSep demoNetwork ⟨600, 1, some 0.1⟩ evA evB =
      Except.ok (some ⟨evA, evB, 0, 0, "gw_grb", 1⟩) :=
  (evalPair_ok_some_iff demoParse demoSep demoNetwork ⟨600, 1, some 0.1⟩ evA evB
      ⟨evA, evB, 0, 0, "gw_grb", 1⟩).mpr
    ⟨0, demo_timeDiff, by norm_num, by norm_num [demoSep],
      by norm_num [minConfidenceAllows, demoSep, calculateConfidenceScore],
      ⟨[], rfl⟩,
      by rw [show demoSep evA.ra evA.dec evB.ra evB.dec = 0 from rfl, demo_score,
        demo_type]⟩

/-- C9 (code bug): `correlateEvents` ignores any supplied events list —
invoked as both in-repo callers do, `correlateEvents(events, {...})`, the
first argument is destructured as its only (options) parameter.  At the
claim's input, `correlate([], { timeWindowSeconds: 600,
angularThresholdDeg: 1, minConfidenceScore: 0.1 })`, the empty array
supplies neither threshold, so the defaults 600 s / 1.0° apply and the
modelled `params` record is the caller's; the function then fetches the
network's events and correlates those: over the demo network it returns one
pair, not the empty list the claim requires for an empty supplied list. -/
theorem correlate_ignores_supplied_events :
    correlateEvents demoParse demoSep demoNetwork ⟨600, 1, some 0.1⟩ =
      Except.ok [⟨evA, evB, 0, 0, "gw_grb", 1⟩] ∧
    Except.ok [(⟨evA, evB, 0, 0, "gw_grb", 1⟩ : EventPair)] ≠
      (Except.ok [] : Except String (List EventPair)) := by
  constructor
  · have hfetch : fetchAllAstroEvents demoNetwork = Except.ok [evA, evB] := rfl
    simp [correlateEvents, candidatePairs, hfetch, pairsInOrder, collectPairs,
      demoPair_eval01, List.insertionSort, List.orderedInsert]
  · intro h
    exact List.cons_ne_nil _ _ (Except.ok.inj h)

/-- C1 (amended): Threshold gating over the fetched events: for every
network state and params with positive window and threshold, whenever
`correlateEvents` resolves successfully, a pair of events `(e1, e2)` drawn
from the `(i, j)`, `i < j` enumeration of the event list the function
itself fetched appears in the output if and only if the parsed absolute
time difference of the two timestamps exists and is ≤ `timeWindowSeconds`,
the angular separation of the two sky positions is ≤ `angularThresholdDeg`,
and, for every set `minConfidenceScore`, the pair's confidence score
reaches it. -/
theorem correlate_threshold_gating (parse : String → Option ℚ)
    (angSep : ℚ → ℚ → ℚ → ℚ → ℚ) (net : Network) (options : CorrelationParams)
    (events : List AstroEvent) (out : List EventPair) (e1 e2 : AstroEvent)
    (hW : 0 < options.timeWindowSeconds) (hT : 0 < options.angularThresholdDeg)
    (hfetch : fetchAllAstroEvents net = Except.ok events)
    (hok : correlateEvents parse angSep net options = Except.ok out)
    (hmem : (e1, e2) ∈ pairsInOrder events) :
    (∃ p ∈ out, p.event1 = e1 ∧ p.event2 = e2) ↔
      ∃ timeDiff : ℚ,
        calculateTimeDifference parse e1.time_utc e2.time_utc = some timeDiff ∧
        timeDiff ≤ options.timeWindowSeconds ∧
        angSep e1.ra e1.dec e2.ra e2.dec ≤ options.angularThresholdDeg ∧
        ∀ m : ℚ, options.minConfidenceScore = some m →
          m ≤ calculateConfidenceScore timeDiff (angSep e1.ra e1.dec e2.ra e2.dec)
            ⟨options.timeWindowSeconds, options.angularThresholdDeg, none⟩ := by
  unfold correlateEvents at hok
  cases hcand : candidatePairs parse angSep net options with
  | error e =>
    rw [hcand] at hok
    exact absurd hok (by simp)
  | ok results =>
    rw [hcand] at hok
    have hout : out = List.insertionSort byConfidenceDesc results :=
      (Except.ok.inj hok).symm
    subst hout
    unfold candidatePairs at hcand
    rw [hfetch] at hcand
    dsimp only at hcand
    have hmemiff : ∀ p : EventPair,
        p ∈ List.insertionSort byConfidenceDesc results ↔ p ∈ results :=
      fun p => (List.perm_insertionSort byConfidenceDesc results).mem_iff
    constructor
    · rintro ⟨p, hp, he1, he2⟩
      have hp2 : p ∈ results := (hmemiff p).mp hp
      rcases (collectPairs_ok_mem parse angSep net options _ _ hcand p).mp hp2
        with ⟨pr, hprmem, hev⟩
      rcases (evalPair_ok_some_iff parse angSep net options pr.1 pr.2 p).mp hev
        with ⟨timeDiff, htd, h1, h2, hmin, -, hpstruct⟩
      have hpr1 : pr.1 = e1 := by rw [← he1, hpstruct]
      have hpr2 : pr.2 = e2 := by rw [← he2, hpstruct]
      subst hpr1
      subst hpr2
      exact ⟨timeDiff, htd, h1, h2,
        (minConfidenceAllows_iff options _
          (calculateConfidenceScore_nonneg _ _ _)).mp hmin⟩
    · rintro ⟨timeDiff, htd, h1, h2, hmin⟩
      have hminb := (minConfidenceAllows_iff options _
        (calculateConfidenceScore_nonneg _ _ _)).mpr hmin
      rcases collectPairs_ok_forall parse angSep net options _ _ hcand
        (e1, e2) hmem with ⟨r, hr⟩
      have hev := evalPair_ok_of_gates parse angSep net options e1 e2 timeDiff r
        htd h1 h2 hminb hr
      refine ⟨⟨e1, e2, timeDiff, angSep e1.ra e1.dec e2.ra e2.dec,
        getCorrelationType e1 e2,
        calculateConfidenceScore timeDiff (angSep e1.ra e1.dec e2.ra e2.dec)
          ⟨options.timeWindowSeconds, options.angularThresholdDeg, none⟩⟩,
        ?_, rfl, rfl⟩
      rw [hmemiff]
      exact (collectPairs_ok_mem parse angSep net options _ _ hcand _).mpr
        ⟨(e1, e2), hmem, hev⟩

/-- Witness for `correlate_threshold_gating`: the demo network's two
coincident events in a 600 s window with a 1° threshold. -/
theorem correlate_threshold_gating_witness :
    (0 : ℚ) < 600 ∧ (0 : ℚ) < 1 ∧
    fetchAllAstroEvents demoNetwork = Except.ok [evA, evB] ∧
    correlateEvents demoParse demoSep demoNetwork ⟨600, 1, none⟩ =
      Except.ok [⟨evA, evB, 0, 0, "gw_grb", 1⟩] ∧
    (evA, evB) ∈ pairsInOrder [evA, evB] ∧
    ((∃ p ∈ [(⟨evA, evB, 0, 0, "gw_grb", 1⟩ : EventPair)],
        p.event1 = evA ∧ p.event2 = evB) ↔
      ∃ timeDiff : ℚ,
        calculateTimeDifference demoParse evA.time_utc evB.time_utc =
          some timeDiff ∧
        timeDiff ≤ (600 : ℚ) ∧
        demoSep evA.ra evA.dec evB.ra evB.dec ≤ (1 : ℚ) ∧
        ∀ m : ℚ, (none : Option ℚ) = some m →
          m ≤ calculateConfidenceScore timeDiff
            (demoSep evA.ra evA.dec evB.ra evB.dec) ⟨600, 1, none⟩) :=
  ⟨by norm_num, by norm_num, rfl, demo_run_eval, by simp [pairsInOrder],
    correlate_threshold_gating demoParse demoSep demoNetwork ⟨600, 1, none⟩
      [evA, evB] [⟨evA, evB, 0, 0, "gw_grb", 1⟩] evA evB
      (by norm_num) (by norm_num) rfl demo_run_eval (by simp [pairsInOrder])⟩

/-- Counterexample to C1 as stated: the claim quantifies over a SUPPLIED
events list — at its input `events = []`, `p = ⟨600, 1, none⟩` no pair may
appear in the output of `correlate(events, p)`.  Invoked exactly that way
(the empty array is destructured as the options object, so both thresholds
take their defaults 600 s / 1.0°, equal to p's here), the function fetches
the demo network's events instead and its output does contain a pair. -/
theorem correlate_threshold_gating_counterexample :
    correlateEvents demoParse demoSep demoNetwork ⟨600, 1, none⟩ =
      Except.ok [⟨evA, evB, 0, 0, "gw_grb", 1⟩] ∧
    [(⟨evA, evB, 0, 0, "gw_grb", 1⟩ : EventPair)] ≠ [] :=
  ⟨demo_run_eval, by simp⟩
